import Mathlib

/-!
Verification of the tx-bakery transaction builder's error taxonomy
(src/tx-bakery/src/error.rs) and the indexer callback sink
(src/src/indexer/callback.rs), shallowly embedded in Lean 4.
-/

namespace TxBakery

/-! ## Hash types (plutus_ledger_api::v2 script/datum hashes, modelled as byte lists) -/

/-- Script hash from plutus-ledger-api, a wrapper around bytes. -/
structure ScriptHash where
  bytes : List Nat
deriving DecidableEq, Repr

/-- Datum hash from plutus-ledger-api, a wrapper around bytes. -/
structure DatumHash where
  bytes : List Nat
deriving DecidableEq, Repr

/-- Debug rendering of a script hash, as produced by the Rust Debug format. -/
def ScriptHash.debugRepr (h : ScriptHash) : String :=
  "ScriptHash(" ++ toString h.bytes ++ ")"

/-- Debug rendering of a datum hash, as produced by the Rust Debug format. -/
def DatumHash.debugRepr (h : DatumHash) : String :=
  "DatumHash(" ++ toString h.bytes ++ ")"

/-! ## CSL redeemer pointer components (csl::plutus::RedeemerTag, csl::utils::BigNum) -/

/-- Redeemer tag of cardano-serialization-lib. -/
inductive RedeemerTag where
  | spend
  | mint
  | cert
  | reward
deriving DecidableEq, Repr

/-- CSL BigNum is an unsigned 64-bit integer; the claims about it only need
its identity, so it is modelled as a natural number. -/
abbrev BigNum := Nat

/-- Debug rendering of a redeemer tag. -/
def RedeemerTag.debugRepr : RedeemerTag → String
  | .spend => "Spend"
  | .mint => "Mint"
  | .cert => "Cert"
  | .reward => "Reward"

/-- Debug rendering of the (tag, index) pair stored in MissingExUnits. -/
def redeemerPtrDebugRepr (p : RedeemerTag × BigNum) : String :=
  "(" ++ p.1.debugRepr ++ ", BigNum(" ++ toString p.2 ++ "))"

/-! ## Collaborator and conversion error types

These types live in chain_query.rs, wallet.rs, submitter.rs and
utils/{csl_to_pla,pla_to_csl}.rs, which are not part of the sources here;
only their use sites in error.rs are. -/

/-- Modelled from the spec: the chain-query collaborator's error type
("Each fails with a collaborator-defined error wrapped transparently");
a transparent wrapper whose display is its cause's message. -/
structure ChainQueryError where
  msg : String
deriving DecidableEq, Repr

/-- Modelled from the spec: the wallet collaborator's error type, a
transparent wrapper whose display is its cause's message. -/
structure WalletError where
  msg : String
deriving DecidableEq, Repr

/-- Modelled from the spec: the submitter collaborator's error type, a
transparent wrapper whose display is its cause's message. -/
structure SubmitterError where
  msg : String
deriving DecidableEq, Repr

/-- Modelled from the spec: the domain-to-ledger conversion error
(utils/pla_to_csl.rs is not in the sources), displayed as its message. -/
structure TryFromPLAError where
  msg : String
deriving DecidableEq, Repr

/-- Modelled from the spec: the ledger-to-domain conversion error
(utils/csl_to_pla.rs is not in the sources), displayed as its message. -/
structure TryFromCSLError where
  msg : String
deriving DecidableEq, Repr

/-- anyhow::Error: a free-form error carrying a message. -/
structure AnyhowError where
  msg : String
deriving DecidableEq, Repr

/-! ## The Error enum of src/tx-bakery/src/error.rs -/

/-- The error sum type of src/tx-bakery/src/error.rs, one constructor per
variant, each carrying exactly the payload the Rust variant carries. -/
inductive Error where
  | MissingMintRedeemer : ScriptHash → Error
  | MissingDatum : DatumHash → Error
  | MissingScript : ScriptHash → Error
  | MissingCollateral : Error
  | MissingChangeOutput : Error
  | MissingExUnits : RedeemerTag × BigNum → Error
  | MissingProtocolParameter : String → Error
  | TryFromPLAError : TryFromPLAError → Error
  | TryFromCSLError : TryFromCSLError → Error
  | ConversionError : AnyhowError → Error
  | Unsupported : String → Error
  | Internal : AnyhowError → Error
  | TransactionBuildError : AnyhowError → Error
  | ChainQueryError : ChainQueryError → Error
  | WalletError : WalletError → Error
  | SubmitterError : SubmitterError → Error
  | InvalidConfiguration : String → Error
  | InvalidPOSIXTime : String → Error
deriving DecidableEq, Repr

/-- The Display implementation derived by thiserror from the #[error(...)]
attribute of each variant of Error, format string by format string
(the transparent variants display as their cause). -/
def Error.display : Error → String
  | .MissingMintRedeemer h =>
      "Unable to find redeemer for minting policy (hash: " ++ h.debugRepr ++ ")"
  | .MissingDatum h =>
      "Unable to find redeemer for datum (hash: " ++ h.debugRepr ++ ")"
  | .MissingScript h =>
      "Unable to find Plutus script (hash: " ++ h.debugRepr ++ ")"
  | .MissingCollateral => "Couldn\x27t find suitable collateral."
  | .MissingChangeOutput =>
      "Change strategy is set to LastOutput, but it is missing from the TransactionInfo."
  | .MissingExUnits p =>
      "Execution units was not calculated for " ++ redeemerPtrDebugRepr p ++ "."
  | .MissingProtocolParameter s => "Protocol parameter " ++ s ++ " is missing"
  | .TryFromPLAError e => e.msg
  | .TryFromCSLError e => e.msg
  | .ConversionError e => e.msg
  | .Unsupported s => "Unsupported " ++ s ++ "."
  | .Internal e => "Internal error: " ++ e.msg
  | .TransactionBuildError e => "Transaction building failed: " ++ e.msg
  | .ChainQueryError e => "Chain query failed: " ++ e.msg
  | .WalletError e => "Chain query failed: " ++ e.msg
  | .SubmitterError e => "Chain query failed: " ++ e.msg
  | .InvalidConfiguration s => "Error occurred due to a configuration for " ++ s
  | .InvalidPOSIXTime s => "A POSIX time value is invalid: " ++ s

/-! ## Indexer callback sink (src/src/indexer/callback.rs)

The sink receives oura chain events and hands each one to a caller-supplied
callback, wrapped in the generic retry utility of indexer/retry.rs. -/

/-- Context of an oura event: the fields handle_event reads, each optional
in oura's model. -/
structure EventContext where
  block_number : Option Nat
  block_hash : Option String
  slot : Option Nat
deriving DecidableEq, Repr

/-- An oura chain event: the context read by handle_event plus an abstract
payload standing for the event data. -/
structure Event where
  context : EventContext
  payload : Nat
deriving DecidableEq, Repr

/-- Modelled from the spec: the error-classification result of the
ErrorPolicyProvider trait (indexer/error.rs is not in the sources): on a
failed attempt the error is classified as retryable, skippable, or fatal. -/
inductive ErrorPolicy where
  | retry
  | skip
  | exit
deriving DecidableEq, Repr

/-- Modelled from the spec: perform_with_retry of indexer/retry.rs (not in
the sources): "retry a fallible operation under a configurable
backoff/error-classification policy" utility, parameterized over the
operation and an error-classification function. The operation receives the
attempt number (attempts may differ because the operation is effectful);
a retryable error consumes one unit of the remaining retry budget. -/
def performWithRetry {E : Type} (classify : E → ErrorPolicy)
    (op : Nat → Except E Unit) : Nat → Nat → Except E Unit
  | attempt, remaining =>
    match op attempt with
    | .ok _ => .ok ()
    | .error e =>
      match classify e with
      | .skip => .ok ()
      | .exit => .error e
      | .retry =>
        match remaining with
        | 0 => .error e
        | r + 1 => performWithRetry classify op (attempt + 1) r

/-- The outcome of running handle_event: normal return of Ok, normal return
of Err, or a Rust panic carrying the panic message. -/
inductive Outcome (E : Type) where
  | ok : Outcome E
  | err : E → Outcome E
  | panicked : String → Outcome E
deriving DecidableEq, Repr

/-- Observable trace of one handle_event run: its outcome, the events for
which the retry-wrapped callback was invoked, and the events for which
utils.track_sink_progress was called, both in execution order. -/
structure HandleTrace (E : Type) where
  result : Outcome E
  invoked : List Event
  progressed : List Event
deriving Repr

/-- The panic message of Option::unwrap on None, raised by the block-context
unwraps in handle_event. -/
def unwrapPanicMsg : String := "called `Option::unwrap()` on a `None` value"

/-- Does an event carry the full block context handle_event unwraps? -/
def Event.hasFullContext (ev : Event) : Bool :=
  ev.context.block_number.isSome && ev.context.block_hash.isSome &&
    ev.context.slot.isSome

/-- handle_event of src/src/indexer/callback.rs: iterate over the received
events; for each, first evaluate the HandlingBlock span fields (unwrapping
block_number, block_hash and slot, which panics when one is absent), then
run the callback through perform_with_retry, then on success notify
track_sink_progress; the question-mark operator exits the loop on the first
error, which is returned unchanged; when the stream is exhausted return
Ok(()). The callback takes the attempt number as well, as in
performWithRetry. -/
def handleEvent {E : Type} (callback : Event → Nat → Except E Unit)
    (classify : E → ErrorPolicy) (maxRetries : Nat) :
    List Event → HandleTrace E
  | [] => ⟨.ok, [], []⟩
  | ev :: rest =>
    if ev.hasFullContext then
      match performWithRetry classify (callback ev) 0 maxRetries with
      | .error e => ⟨.err e, [ev], []⟩
      | .ok _ =>
        let t := handleEvent callback classify maxRetries rest
        ⟨t.result, ev :: t.invoked, ev :: t.progressed⟩
    else ⟨.panicked unwrapPanicMsg, [], []⟩

/-- The retry-wrapped callback applied to one event, as handle_event runs
it: perform_with_retry of the callback at that event under the configured
policy. -/
def retriedCallback {E : Type} (callback : Event → Nat → Except E Unit)
    (classify : E → ErrorPolicy) (maxRetries : Nat) (ev : Event) :
    Except E Unit :=
  performWithRetry classify (callback ev) 0 maxRetries

/-- A thread join handle; bootstrap only ever passes it through, so it is
abstract. -/
structure ThreadHandle where
  id : Nat
deriving DecidableEq, Repr

/-- What the thread spawned by Callback::bootstrap does with the result of
handle_event: Ok finishes the thread normally; Err is logged, re-raised by
or_else, and turned into a panic by expect("request loop failed"); a panic
inside handle_event propagates out of block_on unchanged. -/
def bootstrapThreadOutcome {E : Type} (res : Outcome E) : Outcome E :=
  match res with
  | .ok => .ok
  | .err _ => .panicked "request loop failed"
  | .panicked m => .panicked m

/-- Callback::bootstrap of src/src/indexer/callback.rs: spawn the
event-handling thread and return Ok(handle) unconditionally; the value pair
records the BootstrapResult returned to the caller and the spawned thread's
eventual outcome on the given input stream. -/
def Callback.bootstrap {E : Type} (callback : Event → Nat → Except E Unit)
    (classify : E → ErrorPolicy) (maxRetries : Nat) (input : List Event) :
    Except String ThreadHandle × Outcome E :=
  (Except.ok ⟨0⟩,
   bootstrapThreadOutcome (handleEvent callback classify maxRetries input).result)

/-! ## Spec-modelled balancing pieces

The transaction builder itself (lib.rs) is not among the sources; only its
error type is. The pieces below are modelled from the spec and produce
errors of the Error type of error.rs. -/

/-- Execution units of one script run. -/
structure ExUnits where
  mem : Nat
  steps : Nat
deriving DecidableEq, Repr

/-- Exact-match lookup of a redeemer pointer in the evaluation result map. -/
def lookupExUnits (evaluated : List ((RedeemerTag × BigNum) × ExUnits))
    (r : RedeemerTag × BigNum) : Option ExUnits :=
  match evaluated with
  | [] => none
  | (k, u) :: rest => if k = r then some u else lookupExUnits rest r

/-- Modelled from the spec: the execution-unit attachment step of the
Execution-Unit Evaluator (lib.rs is not in the sources). For every redeemer
of the assembled candidate, look up its (tag, index) in the evaluation
result; a redeemer with no entry is a hard failure reported as
Error.MissingExUnits naming that (tag, index), never priced as zero. -/
def attachExUnits (evaluated : List ((RedeemerTag × BigNum) × ExUnits)) :
    List (RedeemerTag × BigNum) →
    Except Error (List ((RedeemerTag × BigNum) × ExUnits))
  | [] => .ok []
  | r :: rest =>
    match lookupExUnits evaluated r with
    | none => .error (.MissingExUnits r)
    | some u =>
      match attachExUnits evaluated rest with
      | .error e => .error e
      | .ok tl => .ok ((r, u) :: tl)

/-- The change strategy of the builder: append a new change output, or
require the existing last output to absorb the leftover. -/
inductive ChangeStrategy where
  | newOutput
  | lastOutput
deriving DecidableEq, Repr

/-- A transaction output: an address and a value. -/
structure TxOut where
  addr : Nat
  value : Nat
deriving DecidableEq, Repr

/-- Modelled from the spec: the Finalize step of the Fee and Change Balancer
(lib.rs is not in the sources). Apply the change strategy: append a new
output at the change address holding the leftover, or assign the leftover to
the designated existing last output, failing with Error.MissingChangeOutput
when the strategy requires an existing output and none exists. -/
def applyChangeStrategy (strategy : ChangeStrategy) (changeAddr : Nat)
    (outputs : List TxOut) (change : Nat) : Except Error (List TxOut) :=
  match strategy with
  | .newOutput => .ok (outputs ++ [⟨changeAddr, change⟩])
  | .lastOutput =>
    match outputs.getLast? with
    | none => .error .MissingChangeOutput
    | some last => .ok (outputs.dropLast ++ [⟨last.addr, last.value + change⟩])

/-- The divergence error produced when the balancing loop's iteration bound
is exceeded without the fee stabilizing. -/
def divergenceError : Error :=
  .TransactionBuildError ⟨"transaction balancing did not converge within the iteration bound"⟩

/-- Modelled from the spec: the bounded fixed-point iteration of the Fee and
Change Balancer (lib.rs is not in the sources). recomputeFee stands for one
Assemble-then-Price pass at the assumed fee; the loop converges when the
recomputed fee equals the assumed one, and exceeding the iteration bound is
a terminal build failure reported through the Error type, never a
best-effort result. -/
def balanceLoop (recomputeFee : Nat → Nat) (fee : Nat) :
    Nat → Except Error Nat
  | 0 => .error divergenceError
  | n + 1 =>
    let fee' := recomputeFee fee
    if fee' = fee then .ok fee else balanceLoop recomputeFee fee' n

/-- Is an error a resource-shortage failure of the taxonomy (insufficient
funds style: a collateral or input shortage of the wallet), as opposed to an
internal non-convergence failure? -/
def Error.isResourceShortage : Error → Bool
  | .MissingCollateral => true
  | _ => false

/-! ## Concrete fixtures used to instantiate theorems -/

/-- A sample event carrying full block context. -/
def sampleEvent : Event := ⟨⟨some 1, some "deadbeef", some 2⟩, 0⟩

/-- A sample event whose slot is absent. -/
def noSlotEvent : Event := ⟨⟨some 1, some "deadbeef", none⟩, 0⟩

/-- A callback that fails on its first attempt and succeeds afterwards. -/
def transientCallback : Event → Nat → Except Unit Unit :=
  fun _ attempt => if attempt = 0 then .error () else .ok ()

/-- A callback that always succeeds. -/
def alwaysOkCallback : Event → Nat → Except Unit Unit :=
  fun _ _ => .ok ()

/-- A callback that always fails. -/
def alwaysFailCallback : Event → Nat → Except Unit Unit :=
  fun _ _ => .error ()

/-- An error classification that always asks for a retry. -/
def retryPolicy : Unit → ErrorPolicy := fun _ => .retry

/-- An error classification that always aborts. -/
def exitPolicy : Unit → ErrorPolicy := fun _ => .exit

/-! ## Theorems -/

/-- perform_with_retry returns Ok as soon as an attempt succeeds. -/
theorem performWithRetry_ok {E : Type} (cl : E → ErrorPolicy)
    (op : Nat → Except E Unit) (a r : Nat) (h : op a = .ok ()) :
    performWithRetry cl op a r = .ok () := by
  rw [performWithRetry, h]

/-- perform_with_retry moves on to the next attempt when the error is
classified retryable and retry budget remains. -/
theorem performWithRetry_retry_step {E : Type} (cl : E → ErrorPolicy)
    (op : Nat → Except E Unit) (a r : Nat) (e : E)
    (h : op a = .error e) (hcl : cl e = .retry) :
    performWithRetry cl op a (r + 1) = performWithRetry cl op (a + 1) r := by
  rw [performWithRetry, h]
  simp only [hcl]

/-- Unfolding handle_event at an event with full context whose retried
callback succeeds: the event is invoked and progressed and the rest of the
stream decides the outcome. -/
theorem handleEvent_cons_ok {E : Type} (cb : Event → Nat → Except E Unit)
    (cl : E → ErrorPolicy) (n : Nat) (ev : Event) (rest : List Event)
    (hctx : ev.hasFullContext = true)
    (hok : retriedCallback cb cl n ev = .ok ()) :
    handleEvent cb cl n (ev :: rest) =
      ⟨(handleEvent cb cl n rest).result,
       ev :: (handleEvent cb cl n rest).invoked,
       ev :: (handleEvent cb cl n rest).progressed⟩ := by
  have h : performWithRetry cl (cb ev) 0 n = .ok () := hok
  simp only [handleEvent]
  rw [if_pos hctx, h]

/-- Unfolding handle_event at an event with full context whose retried
callback fails: the error is returned unchanged, the event was invoked but
not progressed, and no later event is touched. -/
theorem handleEvent_cons_err {E : Type} (cb : Event → Nat → Except E Unit)
    (cl : E → ErrorPolicy) (n : Nat) (ev : Event) (rest : List Event) (e : E)
    (hctx : ev.hasFullContext = true)
    (herr : retriedCallback cb cl n ev = .error e) :
    handleEvent cb cl n (ev :: rest) = ⟨.err e, [ev], []⟩ := by
  have h : performWithRetry cl (cb ev) 0 n = .error e := herr
  simp only [handleEvent]
  rw [if_pos hctx, h]

/-- Unfolding handle_event at an event lacking block context: the span
field unwraps panic before the callback is attempted. -/
theorem handleEvent_cons_panic {E : Type} (cb : Event → Nat → Except E Unit)
    (cl : E → ErrorPolicy) (n : Nat) (ev : Event) (rest : List Event)
    (hctx : ev.hasFullContext = false) :
    handleEvent cb cl n (ev :: rest) = ⟨.panicked unwrapPanicMsg, [], []⟩ := by
  simp only [handleEvent]
  rw [if_neg (by simp [hctx])]

/-- When every event has full context and every retried callback succeeds,
handle_event returns Ok and invokes and progresses every event in stream
order. -/
theorem handleEvent_all_ok {E : Type} (cb : Event → Nat → Except E Unit)
    (cl : E → ErrorPolicy) (n : Nat) :
    ∀ evs : List Event, (∀ ev ∈ evs, ev.hasFullContext = true) →
      (∀ ev ∈ evs, retriedCallback cb cl n ev = .ok ()) →
      handleEvent cb cl n evs = ⟨.ok, evs, evs⟩
  | [], _, _ => rfl
  | ev :: rest, hctx, hok => by
    rw [handleEvent_cons_ok cb cl n ev rest (hctx ev (by simp)) (hok ev (by simp)),
        handleEvent_all_ok cb cl n rest (fun x hx => hctx x (by simp [hx]))
          (fun x hx => hok x (by simp [hx]))]

/-- When the retried callbacks succeed for a leading segment and fail at
the next event, handle_event returns that error unchanged, invokes exactly
the leading segment and the failing event, and progresses exactly the
leading segment. -/
theorem handleEvent_first_err {E : Type} (cb : Event → Nat → Except E Unit)
    (cl : E → ErrorPolicy) (n : Nat) :
    ∀ (pre : List Event) (bad : Event) (post : List Event) (e : E),
      (∀ ev ∈ pre, ev.hasFullContext = true) →
      bad.hasFullContext = true →
      (∀ ev ∈ pre, retriedCallback cb cl n ev = .ok ()) →
      retriedCallback cb cl n bad = .error e →
      handleEvent cb cl n (pre ++ bad :: post) = ⟨.err e, pre ++ [bad], pre⟩
  | [], bad, post, e, _, hbctx, _, herr => by
    rw [List.nil_append, handleEvent_cons_err cb cl n bad post e hbctx herr]
    rfl
  | p :: pre, bad, post, e, hctx, hbctx, hok, herr => by
    rw [List.cons_append,
        handleEvent_cons_ok cb cl n p (pre ++ bad :: post) (hctx p (by simp))
          (hok p (by simp)),
        handleEvent_first_err cb cl n pre bad post e
          (fun x hx => hctx x (by simp [hx])) hbctx
          (fun x hx => hok x (by simp [hx])) herr]
    rfl

/-- When handle_event returns Ok, every retried callback succeeded. -/
theorem handleEvent_ok_imp_all {E : Type} (cb : Event → Nat → Except E Unit)
    (cl : E → ErrorPolicy) (n : Nat) :
    ∀ evs : List Event, (∀ ev ∈ evs, ev.hasFullContext = true) →
      (handleEvent cb cl n evs).result = .ok →
      ∀ ev ∈ evs, retriedCallback cb cl n ev = .ok ()
  | [], _, _ => fun x hx => absurd hx (by simp)
  | ev :: rest, hctx, hres => by
    intro x hx
    cases hr : retriedCallback cb cl n ev with
    | error e =>
      rw [handleEvent_cons_err cb cl n ev rest e (hctx ev (by simp)) hr] at hres
      cases hres
    | ok u =>
      cases u
      rw [handleEvent_cons_ok cb cl n ev rest (hctx ev (by simp)) hr] at hres
      simp only [List.mem_cons] at hx
      rcases hx with rfl | hx
      · exact hr
      · exact handleEvent_ok_imp_all cb cl n rest
          (fun y hy => hctx y (by simp [hy])) hres x hx

/-- When every event has full context, handle_event never panics. -/
theorem handleEvent_no_panic {E : Type} (cb : Event → Nat → Except E Unit)
    (cl : E → ErrorPolicy) (n : Nat) :
    ∀ evs : List Event, (∀ ev ∈ evs, ev.hasFullContext = true) →
      ∀ s, (handleEvent cb cl n evs).result ≠ .panicked s
  | [], _ => by intro s h; cases h
  | ev :: rest, hctx => by
    intro s
    cases hr : retriedCallback cb cl n ev with
    | error e =>
      rw [handleEvent_cons_err cb cl n ev rest e (hctx ev (by simp)) hr]
      intro h; cases h
    | ok u =>
      cases u
      rw [handleEvent_cons_ok cb cl n ev rest (hctx ev (by simp)) hr]
      exact handleEvent_no_panic cb cl n rest
        (fun y hy => hctx y (by simp [hy])) s

/-- Claim C1: the spec asserts that every chain-query, wallet and submitter
failure is wrapped with its original cause preserved and still identifies
which collaborator it came from. The cause is preserved (each wrapping
constructor stores the collaborator error unchanged), but the rendered
error misidentifies the collaborator: the WalletError and SubmitterError
variants reuse the format string of ChainQueryError, so a wallet or
submitter failure displays as "Chain query failed: ...", identical to a
chain-query failure with the same cause, even though the three errors are
distinct values. -/
theorem C1_collaborator_display_misattributed :
    Error.display (.WalletError ⟨"timeout"⟩) = "Chain query failed: timeout" ∧
    Error.display (.SubmitterError ⟨"timeout"⟩) = "Chain query failed: timeout" ∧
    Error.display (.WalletError ⟨"timeout"⟩) =
      Error.display (.ChainQueryError ⟨"timeout"⟩) ∧
    Error.WalletError ⟨"timeout"⟩ ≠ .ChainQueryError ⟨"timeout"⟩ ∧
    Error.SubmitterError ⟨"timeout"⟩ ≠ .ChainQueryError ⟨"timeout"⟩ ∧
    Error.WalletError ⟨"timeout"⟩ ≠ .SubmitterError ⟨"timeout"⟩ := by
  refine ⟨rfl, rfl, rfl, by simp, by simp, by simp⟩

/-- Claim C3: every unresolvable hash reference fails with the specific
missing-reference kind together with the referenced hash: the three
resolution-error constructors are pairwise distinct, each determines the
hash it carries, and each display string names the kind and embeds the
hash, never a generic message. -/
theorem C3_missing_reference_names_kind_and_hash
    (h₁ h₂ : ScriptHash) (d : DatumHash) :
    Error.MissingMintRedeemer h₁ ≠ .MissingDatum d ∧
    Error.MissingMintRedeemer h₁ ≠ .MissingScript h₂ ∧
    Error.MissingDatum d ≠ .MissingScript h₂ ∧
    (∀ h h', Error.MissingMintRedeemer h = .MissingMintRedeemer h' → h = h') ∧
    (∀ h h', Error.MissingDatum h = .MissingDatum h' → h = h') ∧
    (∀ h h', Error.MissingScript h = .MissingScript h' → h = h') ∧
    Error.display (.MissingMintRedeemer h₁) =
      "Unable to find redeemer for minting policy (hash: " ++ h₁.debugRepr ++ ")" ∧
    Error.display (.MissingDatum d) =
      "Unable to find redeemer for datum (hash: " ++ d.debugRepr ++ ")" ∧
    Error.display (.MissingScript h₂) =
      "Unable to find Plutus script (hash: " ++ h₂.debugRepr ++ ")" := by
  refine ⟨by simp, by simp, by simp, ?_, ?_, ?_, rfl, rfl, rfl⟩ <;>
    intro h h' e <;> injection e

/-- Claim C3 witness: the theorem applied at concrete hashes, its
injectivity conjunct discharged at a concrete equation. -/
theorem C3_missing_reference_witness : (⟨[1]⟩ : ScriptHash) = ⟨[1]⟩ :=
  (C3_missing_reference_names_kind_and_hash ⟨[1]⟩ ⟨[2]⟩ ⟨[3]⟩).2.2.2.1 ⟨[1]⟩ ⟨[1]⟩ rfl

/-- Claim C7: the structural errors are a distinct kind each — missing
collateral, missing change output, missing execution units, missing
protocol parameter — pairwise distinguishable, and the last determines and
displays the name of the absent parameter. -/
theorem C7_structural_errors_distinct (p q : String) (r : RedeemerTag × BigNum) :
    Error.MissingCollateral ≠ .MissingChangeOutput ∧
    Error.MissingCollateral ≠ .MissingExUnits r ∧
    Error.MissingCollateral ≠ .MissingProtocolParameter p ∧
    Error.MissingChangeOutput ≠ .MissingExUnits r ∧
    Error.MissingChangeOutput ≠ .MissingProtocolParameter p ∧
    Error.MissingExUnits r ≠ .MissingProtocolParameter p ∧
    (∀ r', Error.MissingExUnits r = .MissingExUnits r' → r = r') ∧
    (Error.MissingProtocolParameter p = .MissingProtocolParameter q → p = q) ∧
    Error.display (.MissingProtocolParameter p) =
      "Protocol parameter " ++ p ++ " is missing" := by
  refine ⟨by simp, by simp, by simp, by simp, by simp, by simp, ?_, ?_, rfl⟩
  · intro r' e; injection e
  · intro e; injection e

/-- Claim C7 witness: the theorem applied at a concrete parameter name and
redeemer pointer, its injectivity conjunct discharged there. -/
theorem C7_structural_errors_witness : "max_tx_size" = "max_tx_size" :=
  (C7_structural_errors_distinct "max_tx_size" "max_tx_size"
    (RedeemerTag.spend, 0)).2.2.2.2.2.2.2.1 rfl

/-- Claim C2: whenever the bounded balancing loop fails, the error it
returns is the divergence error, which is not a resource-shortage failure
and in particular differs from the missing-collateral error, so a caller
can distinguish non-convergence from an insufficient-funds style problem. -/
theorem C2_divergence_distinct_from_resource_shortage
    (f : Nat → Nat) (fee n : Nat) (e : Error)
    (h : balanceLoop f fee n = .error e) :
    e = divergenceError ∧ e.isResourceShortage = false ∧
    e ≠ .MissingCollateral := by
  induction n generalizing fee with
  | zero =>
    simp only [balanceLoop] at h
    cases h
    exact ⟨rfl, rfl, by simp [divergenceError]⟩
  | succ n ih =>
    simp only [balanceLoop] at h
    split at h
    · cases h
    · exact ih _ h

/-- Claim C2 witness: a fee recomputation that never stabilizes exhausts
the iteration bound and yields exactly the divergence error. -/
theorem C2_divergence_witness :
    divergenceError = divergenceError ∧
    divergenceError.isResourceShortage = false ∧
    divergenceError ≠ .MissingCollateral :=
  C2_divergence_distinct_from_resource_shortage Nat.succ 0 3 divergenceError rfl

/-- Claim C4: when the evaluation result has no entry for a redeemer of the
candidate (the redeemers before it all being evaluated), attaching
execution units fails with MissingExUnits naming exactly that redeemer's
(tag, index) pair; and in every successful attachment each redeemer is
paired with precisely the units the evaluator returned for it, never a
silent zero. -/
theorem C4_missing_ex_units_named
    (evaluated : List ((RedeemerTag × BigNum) × ExUnits))
    (pre post : List (RedeemerTag × BigNum)) (bad : RedeemerTag × BigNum)
    (hpre : ∀ r ∈ pre, (lookupExUnits evaluated r).isSome = true)
    (hbad : lookupExUnits evaluated bad = none) :
    attachExUnits evaluated (pre ++ bad :: post) =
      .error (.MissingExUnits bad) ∧
    (∀ rs out, attachExUnits evaluated rs = .ok out →
      ∀ p ∈ out, lookupExUnits evaluated p.1 = some p.2) := by
  constructor
  · induction pre with
    | nil => simp only [List.nil_append, attachExUnits, hbad]
    | cons r rest ih =>
      have hr := hpre r (by simp)
      obtain ⟨u, hu⟩ := Option.isSome_iff_exists.mp hr
      have hrec := ih (fun x hx => hpre x (by simp [hx]))
      simp only [List.cons_append, attachExUnits, hu, List.append_eq, hrec]
  · intro rs
    induction rs with
    | nil =>
      intro out h p hp
      simp only [attachExUnits] at h
      cases h
      cases hp
    | cons r rest ih =>
      intro out h p hp
      simp only [attachExUnits] at h
      cases hu : lookupExUnits evaluated r with
      | none => rw [hu] at h; cases h
      | some u =>
        rw [hu] at h
        cases hrest : attachExUnits evaluated rest with
        | error e => rw [hrest] at h; cases h
        | ok tl =>
          rw [hrest] at h
          injection h with h
          subst h
          simp only [List.mem_cons] at hp
          rcases hp with rfl | hp
          · exact hu
          · exact ih tl hrest p hp

/-- Claim C4 witness: a candidate with one redeemer and an empty evaluation
result fails with MissingExUnits naming that redeemer. -/
theorem C4_missing_ex_units_witness :
    attachExUnits [] [((RedeemerTag.spend, 0) : RedeemerTag × BigNum)] =
      .error (.MissingExUnits (RedeemerTag.spend, 0)) :=
  (C4_missing_ex_units_named [] [] [] (RedeemerTag.spend, 0) (by simp) rfl).1

/-- Claim C6: the last-output change strategy fails with the
missing-change-output error exactly when the transaction has no output to
absorb the leftover; with at least one output it never fails. -/
theorem C6_last_output_missing_change (changeAddr change : Nat)
    (outputs : List TxOut) :
    applyChangeStrategy .lastOutput changeAddr [] change =
      .error .MissingChangeOutput ∧
    (outputs ≠ [] →
      ∀ e, applyChangeStrategy .lastOutput changeAddr outputs change ≠ .error e) := by
  constructor
  · rfl
  · intro hne e
    cases outputs with
    | nil => exact absurd rfl hne
    | cons o l =>
      obtain ⟨x, hx⟩ := Option.isSome_iff_exists.mp
        (List.getLast?_isSome.mpr (List.cons_ne_nil o l))
      simp only [applyChangeStrategy, hx]
      intro h
      cases h

/-- Claim C6 witness: with a single existing output the last-output
strategy does not produce the missing-change-output error. -/
theorem C6_last_output_witness :
    applyChangeStrategy .lastOutput 0 [⟨1, 2⟩] 5 ≠
      .error .MissingChangeOutput :=
  (C6_last_output_missing_change 0 5 [⟨1, 2⟩]).2 (by simp) .MissingChangeOutput

/-- Claim C5: handle_event hands every received event to the
caller-supplied callback through the generic retry utility under the
configured policy and error classification, never directly: the per-event
outcome is exactly that of retriedCallback (perform_with_retry of the
callback), and the wrapping is observable — a callback failing transiently
under a retry classification still yields a successful retried call, which
a direct invocation would not. -/
theorem C5_callback_retry_wrapped {E : Type} (cb : Event → Nat → Except E Unit)
    (cl : E → ErrorPolicy) (n : Nat) (ev : Event) (rest : List Event)
    (hctx : ev.hasFullContext = true) :
    (∀ e, retriedCallback cb cl n ev = .error e →
      handleEvent cb cl n (ev :: rest) = ⟨.err e, [ev], []⟩) ∧
    (retriedCallback cb cl n ev = .ok () →
      handleEvent cb cl n (ev :: rest) =
        ⟨(handleEvent cb cl n rest).result,
         ev :: (handleEvent cb cl n rest).invoked,
         ev :: (handleEvent cb cl n rest).progressed⟩) ∧
    (∀ e, cl e = .retry → cb ev 0 = .error e → cb ev 1 = .ok () → 1 ≤ n →
      retriedCallback cb cl n ev = .ok ()) := by
  refine ⟨fun e herr => handleEvent_cons_err cb cl n ev rest e hctx herr,
          fun hok => handleEvent_cons_ok cb cl n ev rest hctx hok,
          fun e hcl h0 h1 hn => ?_⟩
  obtain ⟨m, rfl⟩ : ∃ m, n = m + 1 := ⟨n - 1, by omega⟩
  unfold retriedCallback
  rw [performWithRetry_retry_step cl (cb ev) 0 m e h0 hcl]
  exact performWithRetry_ok cl (cb ev) 1 m h1

/-- Claim C5 witness: a callback that fails on its first attempt and
succeeds on the second, under an always-retry classification with one
retry, yields a successful retried call. -/
theorem C5_callback_retry_witness :
    retriedCallback transientCallback retryPolicy 1 sampleEvent = .ok () :=
  (C5_callback_retry_wrapped transientCallback retryPolicy 1 sampleEvent []
    (by decide)).2.2 () rfl rfl rfl (by decide)

/-- Claim C8: handle_event returns Ok exactly when the retried callback
succeeds on every event of the stream; on full success every event is
invoked and progress-tracked once, in stream order; and at the first event
whose retried callback fails, that error is returned unchanged, the callback
is invoked for no later event, and progress is tracked exactly for the
preceding successful events, never for the failing one. -/
theorem C8_result_and_progress {E : Type} (cb : Event → Nat → Except E Unit)
    (cl : E → ErrorPolicy) (n : Nat) (evs : List Event)
    (hctx : ∀ ev ∈ evs, ev.hasFullContext = true) :
    ((handleEvent cb cl n evs).result = .ok ↔
      ∀ ev ∈ evs, retriedCallback cb cl n ev = .ok ()) ∧
    ((∀ ev ∈ evs, retriedCallback cb cl n ev = .ok ()) →
      handleEvent cb cl n evs = ⟨.ok, evs, evs⟩) ∧
    (∀ pre bad post e, evs = pre ++ bad :: post →
      (∀ ev ∈ pre, retriedCallback cb cl n ev = .ok ()) →
      retriedCallback cb cl n bad = .error e →
      handleEvent cb cl n evs = ⟨.err e, pre ++ [bad], pre⟩) := by
  refine ⟨⟨handleEvent_ok_imp_all cb cl n evs hctx, fun hok => ?_⟩,
          fun hok => handleEvent_all_ok cb cl n evs hctx hok, ?_⟩
  · rw [handleEvent_all_ok cb cl n evs hctx hok]
  · intro pre bad post e heq hok herr
    subst heq
    exact handleEvent_first_err cb cl n pre bad post e
      (fun x hx => hctx x (by simp [hx])) (hctx bad (by simp)) hok herr

/-- Claim C8 witness: a one-event stream whose retried callback succeeds is
fully handled with the event progressed exactly once. -/
theorem C8_result_witness :
    handleEvent alwaysOkCallback exitPolicy 0 [sampleEvent] =
      ⟨.ok, [sampleEvent], [sampleEvent]⟩ :=
  (C8_result_and_progress alwaysOkCallback exitPolicy 0 [sampleEvent]
    (by decide)).2.1 (fun ev hev => rfl)

/-- Claim C9: Callback::bootstrap always returns Ok with the spawned
thread's handle, whatever later happens; an error from handle_event is
never surfaced through the bootstrap result but makes the spawned thread
panic with "request loop failed". -/
theorem C9_bootstrap_always_ok {E : Type} (cb : Event → Nat → Except E Unit)
    (cl : E → ErrorPolicy) (n : Nat) (input : List Event) :
    (Callback.bootstrap cb cl n input).1 = Except.ok ⟨0⟩ ∧
    (∀ e, (handleEvent cb cl n input).result = .err e →
      (Callback.bootstrap cb cl n input).2 = .panicked "request loop failed") := by
  refine ⟨rfl, fun e h => ?_⟩
  simp only [Callback.bootstrap, bootstrapThreadOutcome, h]

/-- Claim C9 witness: with an always-failing callback under an abort
classification, bootstrap still returns Ok while the spawned thread panics
with "request loop failed". -/
theorem C9_bootstrap_witness :
    (Callback.bootstrap alwaysFailCallback exitPolicy 0 [sampleEvent]).2 =
      .panicked "request loop failed" :=
  (C9_bootstrap_always_ok alwaysFailCallback exitPolicy 0 [sampleEvent]).2 () rfl

/-- Claim C10: an event lacking a block number, block hash or slot makes
handle_event panic on the span-field unwraps before the callback is
attempted (nothing is invoked or progressed), and when every event of the
stream carries full block context handle_event never panics. -/
theorem C10_missing_context_panics {E : Type} (cb : Event → Nat → Except E Unit)
    (cl : E → ErrorPolicy) (n : Nat) (ev : Event) (rest evs : List Event)
    (hmiss : ev.context.block_number = none ∨ ev.context.block_hash = none ∨
      ev.context.slot = none) :
    handleEvent cb cl n (ev :: rest) = ⟨.panicked unwrapPanicMsg, [], []⟩ ∧
    ((∀ x ∈ evs, x.hasFullContext = true) →
      ∀ s, (handleEvent cb cl n evs).result ≠ .panicked s) := by
  have hfc : ev.hasFullContext = false := by
    unfold Event.hasFullContext
    rcases hmiss with h | h | h <;> simp [h]
  exact ⟨handleEvent_cons_panic cb cl n ev rest hfc,
         fun hctx => handleEvent_no_panic cb cl n evs hctx⟩

/-- Claim C10 witness: a one-event stream whose event lacks its slot makes
handle_event panic with the unwrap message, with no callback invoked. -/
theorem C10_missing_context_witness :
    handleEvent alwaysOkCallback exitPolicy 0 [noSlotEvent] =
      ⟨.panicked unwrapPanicMsg, [], []⟩ :=
  (C10_missing_context_panics alwaysOkCallback exitPolicy 0 noSlotEvent [] []
    (Or.inr (Or.inr rfl))).1

end TxBakery
